import Mathlib

/-!
Verification development for the cardio-gradio repository.

The repository's `cardio_app.py` wires four Gradio entry points
(`run_ascvd`, `run_bp`, `run_cha2ds2vasc`, `run_ecg`) around calculator
and validator functions that live in modules outside the present sources
(`calculators.*`, `validators.*`).  We embed the wrapper functions
shallowly: each wrapper is a Lean function parameterised by the abstract
validator/calculator behaviours (as `Except`-valued functions, modelling
Python functions that may raise), so every theorem quantifies over all
possible behaviours of the missing modules.  Python exceptions are
modelled by `PyErr`: `ValueError` (the only class the wrappers catch)
versus any other exception class.  `reports/pdf.py` is embedded with the
external FPDF library modelled as a deterministic renderer of the exact
sequence of drawing operations the source issues.
-/

/-- Python exception classes relevant to the wrappers: `ValueError`
(caught by every `run_X`) and any other exception class, carrying the
class name and message. -/
inductive PyErr where
  | valueError (msg : String)
  | otherError (cls : String) (msg : String)
deriving DecidableEq, Repr

/-- A Python computation: either a value or a raised exception. -/
abbrev Py (α : Type) := Except PyErr α

/-- Result of one `run_X` invocation: the returned value (`Except.error`
models an exception propagating uncaught out of the wrapper) together
with the list of lines appended to the usage log during the call. -/
structure RunResult where
  output : Py String
  log : List String
deriving Repr

/-- Python `repr` of a bool, as it appears inside a logged dict. -/
def pyBool (b : Bool) : String := if b then "True" else "False"

/-- Python `repr` of a string, as it appears inside a logged dict
(quoting only; escaping is irrelevant to the claims). -/
def pyStr (s : String) : String := "\x27" ++ s ++ "\x27"

/-- Rendering of a numeric field inside a logged dict. -/
def pyNum (q : ℚ) : String := toString q

/-- `log_usage` (cardio_app.py lines 30-34): the single line
`session={id} tool={name} inputs={inputs} outputs={outputs}` appended to
the usage log.  The fresh `uuid`-derived session id is a parameter. -/
def mkLogLine (sessionId toolName inputs outputs : String) : String :=
  "session=" ++ sessionId ++ " tool=" ++ toolName ++
    " inputs=" ++ inputs ++ " outputs=" ++ outputs

/-- Round to the nearest integer, ties to even (Python float formatting
rounding mode), over exact rationals. -/
def roundHalfEvenQ (q : ℚ) : ℤ :=
  let f : ℤ := ⌊q⌋
  let r : ℚ := q - (f : ℚ)
  if r < 1/2 then f
  else if (1:ℚ)/2 < r then f + 1
  else if f % 2 = 0 then f else f + 1

/-- Fixed-point rendering with one decimal digit (the `.1` part of
Python `:.1%` format). -/
def formatFixed1 (x : ℚ) : String :=
  let n : ℤ := roundHalfEvenQ (10 * x)
  let sign := if n < 0 then "-" else ""
  let m := n.natAbs
  sign ++ toString (m / 10) ++ "." ++ toString (m % 10)

/-- Python `f-string` format `{risk:.1%}`: percentage with one decimal. -/
def formatPct1 (r : ℚ) : String := formatFixed1 (100 * r) ++ "%"

/-! ## ASCVD wrapper (cardio_app.py lines 39-65) -/

/-- The ASCVD input record built by `run_ascvd` (lines 40-50). -/
structure AscvdData where
  age : ℚ
  sex : String
  race : String
  total_cholesterol : ℚ
  hdl : ℚ
  sbp : ℚ
  on_htn_meds : Bool
  smoker : Bool
  diabetes : Bool
deriving DecidableEq, Repr

/-- Construction of the ASCVD record from the raw widget arguments. -/
def mkAscvdData (age : ℚ) (sex race : String) (total_chol hdl sbp : ℚ)
    (on_htn_meds smoker diabetes : Bool) : AscvdData :=
  { age := age, sex := sex, race := race, total_cholesterol := total_chol,
    hdl := hdl, sbp := sbp, on_htn_meds := on_htn_meds,
    smoker := smoker, diabetes := diabetes }

/-- Python dict repr of the ASCVD record as interpolated into the log. -/
def reprAscvdData (d : AscvdData) : String :=
  "\x7b\x27age\x27: " ++ pyNum d.age ++
    ", \x27sex\x27: " ++ pyStr d.sex ++
    ", \x27race\x27: " ++ pyStr d.race ++
    ", \x27total_cholesterol\x27: " ++ pyNum d.total_cholesterol ++
    ", \x27hdl\x27: " ++ pyNum d.hdl ++
    ", \x27sbp\x27: " ++ pyNum d.sbp ++
    ", \x27on_htn_meds\x27: " ++ pyBool d.on_htn_meds ++
    ", \x27smoker\x27: " ++ pyBool d.smoker ++
    ", \x27diabetes\x27: " ++ pyBool d.diabetes ++ "\x7d"

/-- The category chain assigned by `run_ascvd` (lines 54-59), outside
the calculator. -/
def ascvd_category (risk : ℚ) : String :=
  if risk ≥ 0.20 then "High"
  else if risk ≥ 0.075 then "Intermediate"
  else if risk ≥ 0.05 then "Borderline"
  else "Low"

/-- The success-path result text of `run_ascvd` (line 60). -/
def ascvdResultText (risk : ℚ) : String :=
  "10-Year ASCVD Risk: " ++ formatPct1 risk ++ " (" ++ ascvd_category risk ++ ")"

/-- `run_ascvd` (lines 39-65).  `validate` and `ascvd` are the imported
validator/calculator, abstract here; `sessionId` is the uuid slice
generated inside the call's single `log_usage`.  Only `ValueError` is
caught; any other raised exception propagates (`Except.error`) with no
log line written. -/
def run_ascvd (validate : AscvdData → Py Unit) (ascvd : AscvdData → Py ℚ)
    (sessionId : String) (age : ℚ) (sex race : String)
    (total_chol hdl sbp : ℚ) (on_htn_meds smoker diabetes : Bool)
    (patient_id : String := "N/A") : RunResult :=
  let data := mkAscvdData age sex race total_chol hdl sbp on_htn_meds smoker diabetes
  match validate data with
  | .error (.valueError e) =>
      { output := .ok ("❌ Input Error: " ++ e),
        log := [mkLogLine sessionId "ascvd" (reprAscvdData data) ("Error: " ++ e)] }
  | .error err => { output := .error err, log := [] }
  | .ok _ =>
    match ascvd data with
    | .error (.valueError e) =>
        { output := .ok ("❌ Input Error: " ++ e),
          log := [mkLogLine sessionId "ascvd" (reprAscvdData data) ("Error: " ++ e)] }
    | .error err => { output := .error err, log := [] }
    | .ok risk =>
        { output := .ok (ascvdResultText risk),
          log := [mkLogLine sessionId "ascvd" (reprAscvdData data) (ascvdResultText risk)] }

/-- Claim C1: the caller `run_ascvd` assigns the category by fixed
breakpoints inclusive on the lower bound of each band: risk ≥ 0.20 is
"High", risk in [0.075, 0.20) is "Intermediate", risk in [0.05, 0.075)
is "Borderline", risk < 0.05 is "Low"; in particular the exact
breakpoints 0.20, 0.075 and 0.05 map to "High", "Intermediate" and
"Borderline" respectively. -/
theorem ascvd_category_fixed_breakpoints (risk : ℚ) :
    (0.20 ≤ risk → ascvd_category risk = "High") ∧
    (0.075 ≤ risk → risk < 0.20 → ascvd_category risk = "Intermediate") ∧
    (0.05 ≤ risk → risk < 0.075 → ascvd_category risk = "Borderline") ∧
    (risk < 0.05 → ascvd_category risk = "Low") ∧
    ascvd_category 0.20 = "High" ∧
    ascvd_category 0.075 = "Intermediate" ∧
    ascvd_category 0.05 = "Borderline" := by
  unfold ascvd_category
  refine ⟨?_, ?_, ?_, ?_, by norm_num, by norm_num, by norm_num⟩
  · intro h; rw [if_pos (by exact_mod_cast h)]
  · intro h₁ h₂
    rw [if_neg (by simpa using not_le.mpr h₂), if_pos (by exact_mod_cast h₁)]
  · intro h₁ h₂
    rw [if_neg (by simpa using not_le.mpr (lt_trans h₂ (by norm_num))),
      if_neg (by simpa using not_le.mpr h₂), if_pos (by exact_mod_cast h₁)]
  · intro h
    rw [if_neg (by simpa using not_le.mpr (lt_trans h (by norm_num))),
      if_neg (by simpa using not_le.mpr (lt_trans h (by norm_num))),
      if_neg (by simpa using not_le.mpr h)]

/-- Witness for C1: the breakpoint theorem applied at risk = 0.1,
which lies in the Intermediate band. -/
theorem ascvd_category_fixed_breakpoints_witness :
    ascvd_category 0.1 = "Intermediate" :=
  (ascvd_category_fixed_breakpoints 0.1).2.1 (by norm_num) (by norm_num)

/-! ## Blood-pressure wrapper (cardio_app.py lines 70-80) -/

/-- The BP record built by `run_bp` (line 71), used only for logging. -/
structure BpData where
  sbp : ℚ
  dbp : ℚ
deriving DecidableEq, Repr

/-- Python dict repr of the BP record as interpolated into the log. -/
def reprBpData (d : BpData) : String :=
  "\x7b\x27sbp\x27: " ++ pyNum d.sbp ++ ", \x27dbp\x27: " ++ pyNum d.dbp ++ "\x7d"

/-- `run_bp` (lines 70-80): validator and calculator take the two
readings positionally, as in the source. -/
def run_bp (validate : ℚ → ℚ → Py Unit) (bp_category : ℚ → ℚ → Py String)
    (sessionId : String) (sbp dbp : ℚ) (patient_id : String := "N/A") : RunResult :=
  let data : BpData := { sbp := sbp, dbp := dbp }
  match validate sbp dbp with
  | .error (.valueError e) =>
      { output := .ok ("❌ Input Error: " ++ e),
        log := [mkLogLine sessionId "bp_category" (reprBpData data) ("Error: " ++ e)] }
  | .error err => { output := .error err, log := [] }
  | .ok _ =>
    match bp_category sbp dbp with
    | .error (.valueError e) =>
        { output := .ok ("❌ Input Error: " ++ e),
          log := [mkLogLine sessionId "bp_category" (reprBpData data) ("Error: " ++ e)] }
    | .error err => { output := .error err, log := [] }
    | .ok category =>
        let result_text := "Blood Pressure Category: " ++ category
        { output := .ok result_text,
          log := [mkLogLine sessionId "bp_category" (reprBpData data) result_text] }

/-! ## CHA2DS2-VASc wrapper (cardio_app.py lines 85-104) -/

/-- The CHA2DS2-VASc record built by `run_cha2ds2vasc` (lines 86-95):
every field has been passed through Python `int()`. -/
structure Cha2Data where
  chf : ℤ
  hypertension : ℤ
  age_ge_75 : ℤ
  diabetes : ℤ
  stroke : ℤ
  vascular : ℤ
  age_65_74 : ℤ
  female : ℤ
deriving DecidableEq, Repr

/-- Python `int()` applied to a checkbox boolean. -/
def pyIntOfBool (b : Bool) : ℤ := if b then 1 else 0

/-- Construction of the CHA2DS2-VASc record (lines 86-95): each of the
eight checkbox flags is coerced with `int()`. -/
def mkCha2Data (chf htn age75 diabetes stroke vascular age65_74 female : Bool) :
    Cha2Data :=
  { chf := pyIntOfBool chf, hypertension := pyIntOfBool htn,
    age_ge_75 := pyIntOfBool age75, diabetes := pyIntOfBool diabetes,
    stroke := pyIntOfBool stroke, vascular := pyIntOfBool vascular,
    age_65_74 := pyIntOfBool age65_74, female := pyIntOfBool female }

/-- Python dict repr of the CHA2DS2-VASc record as logged. -/
def reprCha2Data (d : Cha2Data) : String :=
  "\x7b\x27chf\x27: " ++ toString d.chf ++
    ", \x27hypertension\x27: " ++ toString d.hypertension ++
    ", \x27age_ge_75\x27: " ++ toString d.age_ge_75 ++
    ", \x27diabetes\x27: " ++ toString d.diabetes ++
    ", \x27stroke\x27: " ++ toString d.stroke ++
    ", \x27vascular\x27: " ++ toString d.vascular ++
    ", \x27age_65_74\x27: " ++ toString d.age_65_74 ++
    ", \x27female\x27: " ++ toString d.female ++ "\x7d"

/-- `run_cha2ds2vasc` (lines 85-104). -/
def run_cha2ds2vasc (validate : Cha2Data → Py Unit) (cha2ds2vasc : Cha2Data → Py ℤ)
    (sessionId : String) (chf htn age75 diabetes stroke vascular age65_74 female : Bool)
    (patient_id : String := "N/A") : RunResult :=
  let data := mkCha2Data chf htn age75 diabetes stroke vascular age65_74 female
  match validate data with
  | .error (.valueError e) =>
      { output := .ok ("❌ Input Error: " ++ e),
        log := [mkLogLine sessionId "cha2ds2vasc" (reprCha2Data data) ("Error: " ++ e)] }
  | .error err => { output := .error err, log := [] }
  | .ok _ =>
    match cha2ds2vasc data with
    | .error (.valueError e) =>
        { output := .ok ("❌ Input Error: " ++ e),
          log := [mkLogLine sessionId "cha2ds2vasc" (reprCha2Data data) ("Error: " ++ e)] }
    | .error err => { output := .error err, log := [] }
    | .ok score =>
        let result_text := "CHA₂DS₂-VASc Score: " ++ toString score
        { output := .ok result_text,
          log := [mkLogLine sessionId "cha2ds2vasc" (reprCha2Data data) result_text] }

/-! ## ECG wrapper (cardio_app.py lines 109-146) -/

/-- The rhythm sub-record built by `run_ecg` (line 110). -/
structure RhythmData where
  rate : ℚ
  regular : Bool
  p_waves_present : Bool
deriving DecidableEq, Repr

/-- The 12-lead sub-record built by `run_ecg` (lines 111-121).  The two
lead-list fields are optional: Python merges them into the dict only
under `st_elev and st_elev_leads` (resp. `q_waves and q_leads`), so a
missing key is `none` here. -/
structure LeadData where
  st_elevation : Bool
  st_elevation_leads : Option String
  qt_interval_ms : ℚ
  rr_interval_ms : ℚ
  lvh_criteria_met : Bool
  pathological_q_waves : Bool
  q_wave_leads : Option String
  t_wave_inversion : Bool
  pr_interval_ms : ℚ
deriving DecidableEq, Repr

/-- Construction of the 12-lead record (lines 111-121).  Python string
truthiness: a lead textbox contributes only when non-empty. -/
def mkLeadData (st_elev : Bool) (st_elev_leads : String) (qt rr : ℚ)
    (lvh q_waves : Bool) (q_leads : String) (t_inversion : Bool) (pr : ℚ) :
    LeadData :=
  { st_elevation := st_elev,
    st_elevation_leads := if st_elev ∧ st_elev_leads ≠ "" then some st_elev_leads else none,
    qt_interval_ms := qt,
    rr_interval_ms := rr,
    lvh_criteria_met := lvh,
    pathological_q_waves := q_waves,
    q_wave_leads := if q_waves ∧ q_leads ≠ "" then some q_leads else none,
    t_wave_inversion := t_inversion,
    pr_interval_ms := pr }

/-- Repr of an optional dict entry: rendered (with leading comma) only
when the key is present, matching Python's conditional dict merge. -/
def optEntry (key : String) : Option String → String
  | some v => ", \x27" ++ key ++ "\x27: " ++ pyStr v
  | none => ""

/-- Python dict repr of `{**rhythm_data, **lead_data}` as logged by
`run_ecg` (insertion order of the merged dict). -/
def reprEcgData (r : RhythmData) (l : LeadData) : String :=
  "\x7b\x27rate\x27: " ++ pyNum r.rate ++
    ", \x27regular\x27: " ++ pyBool r.regular ++
    ", \x27p_waves_present\x27: " ++ pyBool r.p_waves_present ++
    ", \x27st_elevation\x27: " ++ pyBool l.st_elevation ++
    optEntry "st_elevation_leads" l.st_elevation_leads ++
    ", \x27qt_interval_ms\x27: " ++ pyNum l.qt_interval_ms ++
    ", \x27rr_interval_ms\x27: " ++ pyNum l.rr_interval_ms ++
    ", \x27lvh_criteria_met\x27: " ++ pyBool l.lvh_criteria_met ++
    ", \x27pathological_q_waves\x27: " ++ pyBool l.pathological_q_waves ++
    optEntry "q_wave_leads" l.q_wave_leads ++
    ", \x27t_wave_inversion\x27: " ++ pyBool l.t_wave_inversion ++
    ", \x27pr_interval_ms\x27: " ++ pyNum l.pr_interval_ms ++ "\x7d"

/-- Result record of `interpret_12lead_findings`: the `"findings"`
entry, rendered as the text interpolated into the summary. -/
structure EcgFindings where
  findings : String
deriving DecidableEq, Repr

/-- Result record of `interpret_ecg_comprehensive`: the
`"overall_risk"` entry. -/
structure EcgComprehensive where
  overall_risk : String
deriving DecidableEq, Repr

/-- The summary text assembled by `run_ecg` (lines 130-139), including
the empty-findings fallback. -/
def ecgSummary (rhythm : String) (f : EcgFindings) (c : EcgComprehensive) : String :=
  let findings_text := if f.findings = "" then "No 12-lead abnormalities detected" else f.findings
  "Rhythm: " ++ rhythm ++ "\nFindings: " ++ findings_text ++
    "\nOverall Risk: " ++ c.overall_risk

/-- `run_ecg` (lines 109-146).  Both validators and the three
interpretation functions are abstract; all five calls sit inside the
`try`, so a `ValueError` from any of them is caught and any other
exception propagates unlogged. -/
def run_ecg (validate_rhythm : RhythmData → Py Unit)
    (validate_lead : LeadData → Py Unit)
    (interpret_rhythm : ℚ → Bool → Bool → Py String)
    (interpret_12lead : LeadData → Py EcgFindings)
    (interpret_comprehensive : RhythmData → LeadData → Py EcgComprehensive)
    (sessionId : String) (rate : ℚ) (regular p_waves_present st_elev : Bool)
    (st_elev_leads : String) (qt rr : ℚ) (lvh q_waves : Bool)
    (q_leads : String) (t_inversion : Bool) (pr : ℚ)
    (patient_id : String := "N/A") : RunResult :=
  let rhythm_data : RhythmData := { rate := rate, regular := regular, p_waves_present := p_waves_present }
  let lead_data := mkLeadData st_elev st_elev_leads qt rr lvh q_waves q_leads t_inversion pr
  let errOut (e : String) : RunResult :=
    { output := .ok ("❌ Input Error: " ++ e),
      log := [mkLogLine sessionId "ecg_interpret" (reprEcgData rhythm_data lead_data) ("Error: " ++ e)] }
  match validate_rhythm rhythm_data with
  | .error (.valueError e) => errOut e
  | .error err => { output := .error err, log := [] }
  | .ok _ =>
    match validate_lead lead_data with
    | .error (.valueError e) => errOut e
    | .error err => { output := .error err, log := [] }
    | .ok _ =>
      match interpret_rhythm rate regular p_waves_present with
      | .error (.valueError e) => errOut e
      | .error err => { output := .error err, log := [] }
      | .ok rhythm =>
        match interpret_12lead lead_data with
        | .error (.valueError e) => errOut e
        | .error err => { output := .error err, log := [] }
        | .ok findings =>
          match interpret_comprehensive rhythm_data lead_data with
          | .error (.valueError e) => errOut e
          | .error err => { output := .error err, log := [] }
          | .ok comprehensive =>
            let summary := ecgSummary rhythm findings comprehensive
            { output := .ok summary,
              log := [mkLogLine sessionId "ecg_interpret" (reprEcgData rhythm_data lead_data) summary] }

/-! ## PDF report (reports/pdf.py) -/

/-- One FPDF drawing operation issued by `create_pdf_report`.  The
external FPDF library is modelled as a deterministic renderer of the
operation sequence. -/
inductive PdfOp where
  | addPage
  | setFont (family style : String) (size : ℚ)
  | cell (w h : ℚ) (txt : String) (ln : Bool)
  | lineBreak (h : ℚ)
deriving DecidableEq, Repr

/-- The exact operation sequence `create_pdf_report` issues (pdf.py
lines 5-13): page, bold 16pt title cell, 12pt font, then for each dict
entry a 8pt line break and a `key: value` cell, in iteration order. -/
def pdfOps (data : List (String × String)) (title : String) : List PdfOp :=
  [PdfOp.addPage, PdfOp.setFont "Arial" "B" 16, PdfOp.cell 0 10 title true,
    PdfOp.setFont "Arial" "" 12] ++
  data.flatMap (fun kv => [PdfOp.lineBreak 8, PdfOp.cell 0 10 (kv.1 ++ ": " ++ kv.2) true])

/-- Model of `pdf.output(buf)`: the byte stream FPDF produces, a
deterministic injective function of the operation sequence. -/
def pdfOutput (ops : List PdfOp) : List ℕ :=
  (toString (repr ops)).data.map Char.toNat

/-- The base64 alphabet. -/
def base64Chars : List Char :=
  "ABCDEFGHIJKLMNOPQRSTUVWXYZabcdefghijklmnopqrstuvwxyz0123456789+/".data

/-- The base64 digit for a 6-bit group. -/
def b64Char (n : ℕ) : Char := base64Chars.getD n "A".data.head!

/-- `base64.b64encode(...).decode()` on a byte list. -/
def base64Encode : List ℕ → String
  | [] => ""
  | [a] =>
      String.mk [b64Char (a / 4 % 64), b64Char (a % 4 * 16)] ++ "=="
  | [a, b] =>
      String.mk [b64Char (a / 4 % 64), b64Char (a % 4 * 16 + b / 16 % 16),
        b64Char (b % 16 * 4)] ++ "="
  | a :: b :: c :: rest =>
      String.mk [b64Char (a / 4 % 64), b64Char (a % 4 * 16 + b / 16 % 16),
        b64Char (b % 16 * 4 + c / 64 % 4), b64Char (c % 64)] ++ base64Encode rest

/-- Return value of `create_pdf_report`: raw bytes or a base64 string,
depending on `return_base64`. -/
inductive PdfResult where
  | bytes (bs : List ℕ)
  | b64 (s : String)
deriving DecidableEq, Repr

/-- `create_pdf_report` (pdf.py lines 4-25): builds the document from
`data` and `title`, then returns either the raw byte stream or its
base64 encoding according to `return_base64`. -/
def create_pdf_report (data : List (String × String)) (title : String)
    (return_base64 : Bool := false) : PdfResult :=
  let pdf := pdfOps data title
  if return_base64 then PdfResult.b64 (base64Encode (pdfOutput pdf))
  else PdfResult.bytes (pdfOutput pdf)

/-- The texts drawn on the document, in drawing order: the text of each
`cell` operation. -/
def docLines (ops : List PdfOp) : List String :=
  ops.filterMap (fun op => match op with
    | PdfOp.cell _ _ txt _ => some txt
    | _ => none)

/-! ## Claims about the wrappers -/

/-- Claim C2: for every input to each of `run_ascvd`, `run_bp`,
`run_cha2ds2vasc` and `run_ecg`, the validator runs before the
calculator; when validation raises a `ValueError` the wrapper returns
the message prefixed "❌ Input Error: " instead of propagating, and the
result is independent of the calculator/interpreter functions — they
are never invoked.  (For `run_ecg`, both the rhythm-validator and the
lead-validator failure paths are covered.) -/
theorem validation_failure_reported_not_propagated
    (vA : AscvdData → Py Unit) (cA cA' : AscvdData → Py ℚ)
    (vB : ℚ → ℚ → Py Unit) (cB cB' : ℚ → ℚ → Py String)
    (vC : Cha2Data → Py Unit) (cC cC' : Cha2Data → Py ℤ)
    (vR : RhythmData → Py Unit) (vL : LeadData → Py Unit)
    (iR iR' : ℚ → Bool → Bool → Py String)
    (i12 i12' : LeadData → Py EcgFindings)
    (iC iC' : RhythmData → LeadData → Py EcgComprehensive)
    (sid pid : String) (age : ℚ) (sex race : String) (tc hdl sbp : ℚ)
    (m sm db : Bool) (dbp : ℚ)
    (f1 f2 f3 f4 f5 f6 f7 f8 : Bool)
    (rate : ℚ) (reg pw ste : Bool) (stl : String) (qt rr : ℚ)
    (lvh qw : Bool) (ql : String) (ti : Bool) (pr : ℚ) :
    (∀ e, vA (mkAscvdData age sex race tc hdl sbp m sm db) = .error (.valueError e) →
      (run_ascvd vA cA sid age sex race tc hdl sbp m sm db pid).output
        = .ok ("❌ Input Error: " ++ e) ∧
      run_ascvd vA cA sid age sex race tc hdl sbp m sm db pid
        = run_ascvd vA cA' sid age sex race tc hdl sbp m sm db pid) ∧
    (∀ e, vB sbp dbp = .error (.valueError e) →
      (run_bp vB cB sid sbp dbp pid).output = .ok ("❌ Input Error: " ++ e) ∧
      run_bp vB cB sid sbp dbp pid = run_bp vB cB' sid sbp dbp pid) ∧
    (∀ e, vC (mkCha2Data f1 f2 f3 f4 f5 f6 f7 f8) = .error (.valueError e) →
      (run_cha2ds2vasc vC cC sid f1 f2 f3 f4 f5 f6 f7 f8 pid).output
        = .ok ("❌ Input Error: " ++ e) ∧
      run_cha2ds2vasc vC cC sid f1 f2 f3 f4 f5 f6 f7 f8 pid
        = run_cha2ds2vasc vC cC' sid f1 f2 f3 f4 f5 f6 f7 f8 pid) ∧
    (∀ e, vR { rate := rate, regular := reg, p_waves_present := pw } = .error (.valueError e) →
      (run_ecg vR vL iR i12 iC sid rate reg pw ste stl qt rr lvh qw ql ti pr pid).output
        = .ok ("❌ Input Error: " ++ e) ∧
      run_ecg vR vL iR i12 iC sid rate reg pw ste stl qt rr lvh qw ql ti pr pid
        = run_ecg vR vL iR' i12' iC' sid rate reg pw ste stl qt rr lvh qw ql ti pr pid) ∧
    (∀ e u, vR { rate := rate, regular := reg, p_waves_present := pw } = .ok u →
      vL (mkLeadData ste stl qt rr lvh qw ql ti pr) = .error (.valueError e) →
      (run_ecg vR vL iR i12 iC sid rate reg pw ste stl qt rr lvh qw ql ti pr pid).output
        = .ok ("❌ Input Error: " ++ e) ∧
      run_ecg vR vL iR i12 iC sid rate reg pw ste stl qt rr lvh qw ql ti pr pid
        = run_ecg vR vL iR' i12' iC' sid rate reg pw ste stl qt rr lvh qw ql ti pr pid) := by
  refine ⟨?_, ?_, ?_, ?_, ?_⟩
  · intro e h
    constructor <;> simp [run_ascvd, h]
  · intro e h
    constructor <;> simp [run_bp, h]
  · intro e h
    constructor <;> simp [run_cha2ds2vasc, h]
  · intro e h
    constructor <;> simp [run_ecg, h]
  · intro e u h₁ h₂
    constructor <;> simp [run_ecg, h₁, h₂]

/-- Witness for C2: a validator that rejects age 39 makes `run_ascvd`
return the prefixed error message. -/
theorem validation_failure_reported_not_propagated_witness :
    (run_ascvd (fun _ => .error (.valueError "bad age")) (fun _ => .ok 0.1)
      "abc12345" 39 "Male" "White" 200 50 120 false false false "N/A").output
      = .ok ("❌ Input Error: " ++ "bad age") :=
  ((validation_failure_reported_not_propagated
      (fun _ => .error (.valueError "bad age")) (fun _ => .ok 0.1) (fun _ => .ok 0.2)
      (fun _ _ => .ok ()) (fun _ _ => .ok "Normal") (fun _ _ => .ok "Elevated")
      (fun _ => .ok ()) (fun _ => .ok 0) (fun _ => .ok 1)
      (fun _ => .ok ()) (fun _ => .ok ())
      (fun _ _ _ => .ok "Sinus") (fun _ _ _ => .ok "Sinus")
      (fun _ => .ok { findings := "" }) (fun _ => .ok { findings := "" })
      (fun _ _ => .ok { overall_risk := "low" }) (fun _ _ => .ok { overall_risk := "low" })
      "abc12345" "N/A" 39 "Male" "White" 200 50 120 false false false 80
      false false false false false false false false
      75 true true false "" 400 800 false false "" false 160).1
    "bad age" rfl).1

/-- Claim C3: in the lead record `run_ecg` passes to the validator and
the interpretation engine, an optional lead-list field is included only
when its paired boolean flag is true; lead-list text supplied alongside
a false flag is dropped before the engine sees it. -/
theorem lead_fields_only_with_true_flag
    (st_elev : Bool) (st_elev_leads : String) (qt rr : ℚ)
    (lvh q_waves : Bool) (q_leads : String) (t_inversion : Bool) (pr : ℚ) :
    ((mkLeadData st_elev st_elev_leads qt rr lvh q_waves q_leads t_inversion pr).st_elevation_leads.isSome
      → st_elev = true) ∧
    (st_elev = false →
      (mkLeadData st_elev st_elev_leads qt rr lvh q_waves q_leads t_inversion pr).st_elevation_leads = none) ∧
    ((mkLeadData st_elev st_elev_leads qt rr lvh q_waves q_leads t_inversion pr).q_wave_leads.isSome
      → q_waves = true) ∧
    (q_waves = false →
      (mkLeadData st_elev st_elev_leads qt rr lvh q_waves q_leads t_inversion pr).q_wave_leads = none) := by
  unfold mkLeadData
  refine ⟨?_, ?_, ?_, ?_⟩ <;> intro h <;> first
    | (subst h; simp)
    | (by_cases hf : st_elev = true
       · exact hf
       · simp [hf] at h)
    | (by_cases hf : q_waves = true
       · exact hf
       · simp [hf] at h)

/-- Witness for C3: with the ST-elevation flag false but lead text
"V1-V4" supplied, the field is absent from the record. -/
theorem lead_fields_only_with_true_flag_witness :
    (mkLeadData false "V1-V4" 400 800 false false "II" false 160).st_elevation_leads = none :=
  (lead_fields_only_with_true_flag false "V1-V4" 400 800 false false "II" false 160).2.1 rfl

/-- Claim C9: a lead-list field is present in the record if and only if
its paired flag is true and the supplied text is non-empty; when
present it carries the supplied text verbatim, and it is never the
empty string — the validator and engine never receive an empty lead
list. -/
theorem lead_field_present_iff_flag_and_nonempty
    (st_elev : Bool) (st_elev_leads : String) (qt rr : ℚ)
    (lvh q_waves : Bool) (q_leads : String) (t_inversion : Bool) (pr : ℚ) :
    ((mkLeadData st_elev st_elev_leads qt rr lvh q_waves q_leads t_inversion pr).st_elevation_leads.isSome
      ↔ st_elev = true ∧ st_elev_leads ≠ "") ∧
    ((mkLeadData st_elev st_elev_leads qt rr lvh q_waves q_leads t_inversion pr).q_wave_leads.isSome
      ↔ q_waves = true ∧ q_leads ≠ "") ∧
    (st_elev = true → st_elev_leads ≠ "" →
      (mkLeadData st_elev st_elev_leads qt rr lvh q_waves q_leads t_inversion pr).st_elevation_leads
        = some st_elev_leads) ∧
    (q_waves = true → q_leads ≠ "" →
      (mkLeadData st_elev st_elev_leads qt rr lvh q_waves q_leads t_inversion pr).q_wave_leads
        = some q_leads) ∧
    (mkLeadData st_elev st_elev_leads qt rr lvh q_waves q_leads t_inversion pr).st_elevation_leads
      ≠ some "" ∧
    (mkLeadData st_elev st_elev_leads qt rr lvh q_waves q_leads t_inversion pr).q_wave_leads
      ≠ some "" := by
  unfold mkLeadData
  refine ⟨?_, ?_, ?_, ?_, ?_, ?_⟩ <;> split <;> simp_all

/-- Witness for C9: with the flag true but an empty lead textbox, the
field is omitted; with non-empty text it is present verbatim. -/
theorem lead_field_present_iff_flag_and_nonempty_witness :
    ((mkLeadData true "" 400 800 false true "II" false 160).st_elevation_leads.isSome
      ↔ true = true ∧ ("" : String) ≠ "") ∧
    (mkLeadData true "" 400 800 false true "II" false 160).q_wave_leads = some "II" :=
  ⟨(lead_field_present_iff_flag_and_nonempty true "" 400 800 false true "II" false 160).1,
   (lead_field_present_iff_flag_and_nonempty true "" 400 800 false true "II" false 160).2.2.2.1
     rfl (by decide)⟩

/-- Claim C10: every field of the record `run_cha2ds2vasc` builds (and
passes to the validator and the scorer) has been coerced with `int()`
and is the integer 0 or 1. -/
theorem cha2ds2vasc_fields_are_int01
    (chf htn age75 diabetes stroke vascular age65_74 female : Bool) :
    ((mkCha2Data chf htn age75 diabetes stroke vascular age65_74 female).chf = 0 ∨
      (mkCha2Data chf htn age75 diabetes stroke vascular age65_74 female).chf = 1) ∧
    ((mkCha2Data chf htn age75 diabetes stroke vascular age65_74 female).hypertension = 0 ∨
      (mkCha2Data chf htn age75 diabetes stroke vascular age65_74 female).hypertension = 1) ∧
    ((mkCha2Data chf htn age75 diabetes stroke vascular age65_74 female).age_ge_75 = 0 ∨
      (mkCha2Data chf htn age75 diabetes stroke vascular age65_74 female).age_ge_75 = 1) ∧
    ((mkCha2Data chf htn age75 diabetes stroke vascular age65_74 female).diabetes = 0 ∨
      (mkCha2Data chf htn age75 diabetes stroke vascular age65_74 female).diabetes = 1) ∧
    ((mkCha2Data chf htn age75 diabetes stroke vascular age65_74 female).stroke = 0 ∨
      (mkCha2Data chf htn age75 diabetes stroke vascular age65_74 female).stroke = 1) ∧
    ((mkCha2Data chf htn age75 diabetes stroke vascular age65_74 female).vascular = 0 ∨
      (mkCha2Data chf htn age75 diabetes stroke vascular age65_74 female).vascular = 1) ∧
    ((mkCha2Data chf htn age75 diabetes stroke vascular age65_74 female).age_65_74 = 0 ∨
      (mkCha2Data chf htn age75 diabetes stroke vascular age65_74 female).age_65_74 = 1) ∧
    ((mkCha2Data chf htn age75 diabetes stroke vascular age65_74 female).female = 0 ∨
      (mkCha2Data chf htn age75 diabetes stroke vascular age65_74 female).female = 1) := by
  unfold mkCha2Data pyIntOfBool
  refine ⟨?_, ?_, ?_, ?_, ?_, ?_, ?_, ?_⟩ <;> dsimp only <;> split <;> simp

/-- Counterexample to claim C4 as stated: with a passing validator and
a calculator raising a `TypeError`, `run_ascvd` does not return a
generic failure string — the exception propagates uncaught out of the
wrapper — and nothing is logged. -/
theorem non_valueerror_surfaced_counterexample :
    (run_ascvd (fun _ => .ok ()) (fun _ => .error (.otherError "TypeError" "bad record"))
      "abc12345" 60 "Male" "White" 200 50 120 false false false "N/A").output
      = .error (.otherError "TypeError" "bad record") ∧
    (run_ascvd (fun _ => .ok ()) (fun _ => .error (.otherError "TypeError" "bad record"))
      "abc12345" 60 "Male" "White" 200 50 120 false false false "N/A").log = [] := by
  constructor <;> rfl

/-- Claim C4 amended: each `run_X` wrapper catches only `ValueError`;
an unexpected non-`ValueError` fault — whether raised by the validator
or by the calculator/interpreter after successful validation —
propagates uncaught to the caller, and the invocation is not logged.
The first four conjuncts cover calculator faults, the remaining five
cover validator faults (for `run_ecg`, each of its two validators). -/
theorem non_valueerror_propagates
    (vA : AscvdData → Py Unit) (cA : AscvdData → Py ℚ)
    (vB : ℚ → ℚ → Py Unit) (cB : ℚ → ℚ → Py String)
    (vC : Cha2Data → Py Unit) (cC : Cha2Data → Py ℤ)
    (vR : RhythmData → Py Unit) (vL : LeadData → Py Unit)
    (iR : ℚ → Bool → Bool → Py String)
    (i12 : LeadData → Py EcgFindings)
    (iC : RhythmData → LeadData → Py EcgComprehensive)
    (sid pid : String) (age : ℚ) (sex race : String) (tc hdl sbp : ℚ)
    (m sm db : Bool) (dbp : ℚ)
    (f1 f2 f3 f4 f5 f6 f7 f8 : Bool)
    (rate : ℚ) (reg pw ste : Bool) (stl : String) (qt rr : ℚ)
    (lvh qw : Bool) (ql : String) (ti : Bool) (pr : ℚ) :
    (∀ cls msg u, vA (mkAscvdData age sex race tc hdl sbp m sm db) = .ok u →
      cA (mkAscvdData age sex race tc hdl sbp m sm db) = .error (.otherError cls msg) →
      run_ascvd vA cA sid age sex race tc hdl sbp m sm db pid
        = { output := .error (.otherError cls msg), log := [] }) ∧
    (∀ cls msg u, vB sbp dbp = .ok u → cB sbp dbp = .error (.otherError cls msg) →
      run_bp vB cB sid sbp dbp pid
        = { output := .error (.otherError cls msg), log := [] }) ∧
    (∀ cls msg u, vC (mkCha2Data f1 f2 f3 f4 f5 f6 f7 f8) = .ok u →
      cC (mkCha2Data f1 f2 f3 f4 f5 f6 f7 f8) = .error (.otherError cls msg) →
      run_cha2ds2vasc vC cC sid f1 f2 f3 f4 f5 f6 f7 f8 pid
        = { output := .error (.otherError cls msg), log := [] }) ∧
    (∀ cls msg u v, vR { rate := rate, regular := reg, p_waves_present := pw } = .ok u →
      vL (mkLeadData ste stl qt rr lvh qw ql ti pr) = .ok v →
      iR rate reg pw = .error (.otherError cls msg) →
      run_ecg vR vL iR i12 iC sid rate reg pw ste stl qt rr lvh qw ql ti pr pid
        = { output := .error (.otherError cls msg), log := [] }) ∧
    (∀ cls msg, vA (mkAscvdData age sex race tc hdl sbp m sm db) = .error (.otherError cls msg) →
      run_ascvd vA cA sid age sex race tc hdl sbp m sm db pid
        = { output := .error (.otherError cls msg), log := [] }) ∧
    (∀ cls msg, vB sbp dbp = .error (.otherError cls msg) →
      run_bp vB cB sid sbp dbp pid
        = { output := .error (.otherError cls msg), log := [] }) ∧
    (∀ cls msg, vC (mkCha2Data f1 f2 f3 f4 f5 f6 f7 f8) = .error (.otherError cls msg) →
      run_cha2ds2vasc vC cC sid f1 f2 f3 f4 f5 f6 f7 f8 pid
        = { output := .error (.otherError cls msg), log := [] }) ∧
    (∀ cls msg, vR { rate := rate, regular := reg, p_waves_present := pw }
        = .error (.otherError cls msg) →
      run_ecg vR vL iR i12 iC sid rate reg pw ste stl qt rr lvh qw ql ti pr pid
        = { output := .error (.otherError cls msg), log := [] }) ∧
    (∀ cls msg u, vR { rate := rate, regular := reg, p_waves_present := pw } = .ok u →
      vL (mkLeadData ste stl qt rr lvh qw ql ti pr) = .error (.otherError cls msg) →
      run_ecg vR vL iR i12 iC sid rate reg pw ste stl qt rr lvh qw ql ti pr pid
        = { output := .error (.otherError cls msg), log := [] }) := by
  refine ⟨?_, ?_, ?_, ?_, ?_, ?_, ?_, ?_, ?_⟩
  · intro cls msg u h₁ h₂
    simp [run_ascvd, h₁, h₂]
  · intro cls msg u h₁ h₂
    simp [run_bp, h₁, h₂]
  · intro cls msg u h₁ h₂
    simp [run_cha2ds2vasc, h₁, h₂]
  · intro cls msg u v h₁ h₂ h₃
    simp [run_ecg, h₁, h₂, h₃]
  · intro cls msg h
    simp [run_ascvd, h]
  · intro cls msg h
    simp [run_bp, h]
  · intro cls msg h
    simp [run_cha2ds2vasc, h]
  · intro cls msg h
    simp [run_ecg, h]
  · intro cls msg u h₁ h₂
    simp [run_ecg, h₁, h₂]

/-- Witness for the amended C4: a `KeyError` from the CHA2DS2-VASc
scorer propagates out of `run_cha2ds2vasc` with an empty log, and a
`TypeError` from the blood-pressure validator propagates out of
`run_bp` with an empty log. -/
theorem non_valueerror_propagates_witness :
    run_cha2ds2vasc (fun _ => .ok ()) (fun _ => .error (.otherError "KeyError" "chf"))
      "abc12345" false true false true false false true true "N/A"
      = { output := .error (.otherError "KeyError" "chf"), log := [] } ∧
    run_bp (fun _ _ => .error (.otherError "TypeError" "sbp is None"))
      (fun _ _ => .ok "Normal") "abc12345" 120 80 "N/A"
      = { output := .error (.otherError "TypeError" "sbp is None"), log := [] } :=
  ⟨(non_valueerror_propagates
      (fun _ => .ok ()) (fun _ => .ok 0.1)
      (fun _ _ => .ok ()) (fun _ _ => .ok "Normal")
      (fun _ => .ok ()) (fun _ => .error (.otherError "KeyError" "chf"))
      (fun _ => .ok ()) (fun _ => .ok ())
      (fun _ _ _ => .ok "Sinus") (fun _ => .ok { findings := "" })
      (fun _ _ => .ok { overall_risk := "low" })
      "abc12345" "N/A" 60 "Male" "White" 200 50 120 false false false 80
      false true false true false false true true
      75 true true false "" 400 800 false false "" false 160).2.2.1
    "KeyError" "chf" () rfl rfl,
   (non_valueerror_propagates
      (fun _ => .ok ()) (fun _ => .ok 0.1)
      (fun _ _ => .error (.otherError "TypeError" "sbp is None")) (fun _ _ => .ok "Normal")
      (fun _ => .ok ()) (fun _ => .ok 0)
      (fun _ => .ok ()) (fun _ => .ok ())
      (fun _ _ _ => .ok "Sinus") (fun _ => .ok { findings := "" })
      (fun _ _ => .ok { overall_risk := "low" })
      "abc12345" "N/A" 60 "Male" "White" 200 50 120 false false false 80
      false true false true false false true true
      75 true true false "" 400 800 false false "" false 160).2.2.2.2.2.1
    "TypeError" "sbp is None" rfl⟩

/-- Claim C5: each `run_X` wrapper is deterministic in its returned
value: the output component is a pure function of the input arguments
and the validator/calculator behaviours, and in particular does not
depend on the per-call generated correlation identifier (the only
per-call varying datum) — two invocations with identical inputs return
identical output on every path. -/
theorem run_output_deterministic
    (vA : AscvdData → Py Unit) (cA : AscvdData → Py ℚ)
    (vB : ℚ → ℚ → Py Unit) (cB : ℚ → ℚ → Py String)
    (vC : Cha2Data → Py Unit) (cC : Cha2Data → Py ℤ)
    (vR : RhythmData → Py Unit) (vL : LeadData → Py Unit)
    (iR : ℚ → Bool → Bool → Py String)
    (i12 : LeadData → Py EcgFindings)
    (iC : RhythmData → LeadData → Py EcgComprehensive)
    (sid₁ sid₂ pid : String) (age : ℚ) (sex race : String) (tc hdl sbp : ℚ)
    (m sm db : Bool) (dbp : ℚ)
    (f1 f2 f3 f4 f5 f6 f7 f8 : Bool)
    (rate : ℚ) (reg pw ste : Bool) (stl : String) (qt rr : ℚ)
    (lvh qw : Bool) (ql : String) (ti : Bool) (pr : ℚ) :
    (run_ascvd vA cA sid₁ age sex race tc hdl sbp m sm db pid).output
      = (run_ascvd vA cA sid₂ age sex race tc hdl sbp m sm db pid).output ∧
    (run_bp vB cB sid₁ sbp dbp pid).output
      = (run_bp vB cB sid₂ sbp dbp pid).output ∧
    (run_cha2ds2vasc vC cC sid₁ f1 f2 f3 f4 f5 f6 f7 f8 pid).output
      = (run_cha2ds2vasc vC cC sid₂ f1 f2 f3 f4 f5 f6 f7 f8 pid).output ∧
    (run_ecg vR vL iR i12 iC sid₁ rate reg pw ste stl qt rr lvh qw ql ti pr pid).output
      = (run_ecg vR vL iR i12 iC sid₂ rate reg pw ste stl qt rr lvh qw ql ti pr pid).output := by
  refine ⟨?_, ?_, ?_, ?_⟩
  · rcases hv : vA (mkAscvdData age sex race tc hdl sbp m sm db) with err | u
    · rcases err with e | ⟨cls, msg⟩ <;> simp [run_ascvd, hv]
    · rcases hc : cA (mkAscvdData age sex race tc hdl sbp m sm db) with err | risk
      · rcases err with e | ⟨cls, msg⟩ <;> simp [run_ascvd, hv, hc]
      · simp [run_ascvd, hv, hc]
  · rcases hv : vB sbp dbp with err | u
    · rcases err with e | ⟨cls, msg⟩ <;> simp [run_bp, hv]
    · rcases hc : cB sbp dbp with err | category
      · rcases err with e | ⟨cls, msg⟩ <;> simp [run_bp, hv, hc]
      · simp [run_bp, hv, hc]
  · rcases hv : vC (mkCha2Data f1 f2 f3 f4 f5 f6 f7 f8) with err | u
    · rcases err with e | ⟨cls, msg⟩ <;> simp [run_cha2ds2vasc, hv]
    · rcases hc : cC (mkCha2Data f1 f2 f3 f4 f5 f6 f7 f8) with err | score
      · rcases err with e | ⟨cls, msg⟩ <;> simp [run_cha2ds2vasc, hv, hc]
      · simp [run_cha2ds2vasc, hv, hc]
  · rcases h₁ : vR { rate := rate, regular := reg, p_waves_present := pw } with err | u
    · rcases err with e | ⟨cls, msg⟩ <;> simp [run_ecg, h₁]
    · rcases h₂ : vL (mkLeadData ste stl qt rr lvh qw ql ti pr) with err | v
      · rcases err with e | ⟨cls, msg⟩ <;> simp [run_ecg, h₁, h₂]
      · rcases h₃ : iR rate reg pw with err | rhythm
        · rcases err with e | ⟨cls, msg⟩ <;> simp [run_ecg, h₁, h₂, h₃]
        · rcases h₄ : i12 (mkLeadData ste stl qt rr lvh qw ql ti pr) with err | findings
          · rcases err with e | ⟨cls, msg⟩ <;> simp [run_ecg, h₁, h₂, h₃, h₄]
          · rcases h₅ : iC { rate := rate, regular := reg, p_waves_present := pw }
                (mkLeadData ste stl qt rr lvh qw ql ti pr) with err | comp
            · rcases err with e | ⟨cls, msg⟩ <;> simp [run_ecg, h₁, h₂, h₃, h₄, h₅]
            · simp [run_ecg, h₁, h₂, h₃, h₄, h₅]

/-- Claim C6: every invocation of a `run_X` wrapper — on the success
path and on the validation-failure path alike — appends exactly one log
line, of the form produced by `log_usage`: the generated correlation
identifier, the tool name, the input record and the output text (or
`Error:` text on failure). -/
theorem every_invocation_logs_one_line
    (vA : AscvdData → Py Unit) (cA : AscvdData → Py ℚ)
    (vB : ℚ → ℚ → Py Unit) (cB : ℚ → ℚ → Py String)
    (vC : Cha2Data → Py Unit) (cC : Cha2Data → Py ℤ)
    (vR : RhythmData → Py Unit) (vL : LeadData → Py Unit)
    (iR : ℚ → Bool → Bool → Py String)
    (i12 : LeadData → Py EcgFindings)
    (iC : RhythmData → LeadData → Py EcgComprehensive)
    (sid pid : String) (age : ℚ) (sex race : String) (tc hdl sbp : ℚ)
    (m sm db : Bool) (dbp : ℚ)
    (f1 f2 f3 f4 f5 f6 f7 f8 : Bool)
    (rate : ℚ) (reg pw ste : Bool) (stl : String) (qt rr : ℚ)
    (lvh qw : Bool) (ql : String) (ti : Bool) (pr : ℚ) :
    (∀ e, vA (mkAscvdData age sex race tc hdl sbp m sm db) = .error (.valueError e) →
      (run_ascvd vA cA sid age sex race tc hdl sbp m sm db pid).log
        = [mkLogLine sid "ascvd"
            (reprAscvdData (mkAscvdData age sex race tc hdl sbp m sm db)) ("Error: " ++ e)]) ∧
    (∀ u risk, vA (mkAscvdData age sex race tc hdl sbp m sm db) = .ok u →
      cA (mkAscvdData age sex race tc hdl sbp m sm db) = .ok risk →
      (run_ascvd vA cA sid age sex race tc hdl sbp m sm db pid).log
        = [mkLogLine sid "ascvd"
            (reprAscvdData (mkAscvdData age sex race tc hdl sbp m sm db)) (ascvdResultText risk)]) ∧
    (∀ e, vB sbp dbp = .error (.valueError e) →
      (run_bp vB cB sid sbp dbp pid).log
        = [mkLogLine sid "bp_category" (reprBpData { sbp := sbp, dbp := dbp }) ("Error: " ++ e)]) ∧
    (∀ u category, vB sbp dbp = .ok u → cB sbp dbp = .ok category →
      (run_bp vB cB sid sbp dbp pid).log
        = [mkLogLine sid "bp_category" (reprBpData { sbp := sbp, dbp := dbp })
            ("Blood Pressure Category: " ++ category)]) ∧
    (∀ e, vC (mkCha2Data f1 f2 f3 f4 f5 f6 f7 f8) = .error (.valueError e) →
      (run_cha2ds2vasc vC cC sid f1 f2 f3 f4 f5 f6 f7 f8 pid).log
        = [mkLogLine sid "cha2ds2vasc"
            (reprCha2Data (mkCha2Data f1 f2 f3 f4 f5 f6 f7 f8)) ("Error: " ++ e)]) ∧
    (∀ u score, vC (mkCha2Data f1 f2 f3 f4 f5 f6 f7 f8) = .ok u →
      cC (mkCha2Data f1 f2 f3 f4 f5 f6 f7 f8) = .ok score →
      (run_cha2ds2vasc vC cC sid f1 f2 f3 f4 f5 f6 f7 f8 pid).log
        = [mkLogLine sid "cha2ds2vasc"
            (reprCha2Data (mkCha2Data f1 f2 f3 f4 f5 f6 f7 f8))
            ("CHA₂DS₂-VASc Score: " ++ toString score)]) ∧
    (∀ e, vR { rate := rate, regular := reg, p_waves_present := pw } = .error (.valueError e) →
      (run_ecg vR vL iR i12 iC sid rate reg pw ste stl qt rr lvh qw ql ti pr pid).log
        = [mkLogLine sid "ecg_interpret"
            (reprEcgData { rate := rate, regular := reg, p_waves_present := pw }
              (mkLeadData ste stl qt rr lvh qw ql ti pr)) ("Error: " ++ e)]) ∧
    (∀ e u, vR { rate := rate, regular := reg, p_waves_present := pw } = .ok u →
      vL (mkLeadData ste stl qt rr lvh qw ql ti pr) = .error (.valueError e) →
      (run_ecg vR vL iR i12 iC sid rate reg pw ste stl qt rr lvh qw ql ti pr pid).log
        = [mkLogLine sid "ecg_interpret"
            (reprEcgData { rate := rate, regular := reg, p_waves_present := pw }
              (mkLeadData ste stl qt rr lvh qw ql ti pr)) ("Error: " ++ e)]) ∧
    (∀ u v rhythm findings comp,
      vR { rate := rate, regular := reg, p_waves_present := pw } = .ok u →
      vL (mkLeadData ste stl qt rr lvh qw ql ti pr) = .ok v →
      iR rate reg pw = .ok rhythm →
      i12 (mkLeadData ste stl qt rr lvh qw ql ti pr) = .ok findings →
      iC { rate := rate, regular := reg, p_waves_present := pw }
          (mkLeadData ste stl qt rr lvh qw ql ti pr) = .ok comp →
      (run_ecg vR vL iR i12 iC sid rate reg pw ste stl qt rr lvh qw ql ti pr pid).log
        = [mkLogLine sid "ecg_interpret"
            (reprEcgData { rate := rate, regular := reg, p_waves_present := pw }
              (mkLeadData ste stl qt rr lvh qw ql ti pr))
            (ecgSummary rhythm findings comp)]) := by
  refine ⟨?_, ?_, ?_, ?_, ?_, ?_, ?_, ?_, ?_⟩
  · intro e h
    simp [run_ascvd, h]
  · intro u risk h₁ h₂
    simp [run_ascvd, h₁, h₂]
  · intro e h
    simp [run_bp, h]
  · intro u category h₁ h₂
    simp [run_bp, h₁, h₂]
  · intro e h
    simp [run_cha2ds2vasc, h]
  · intro u score h₁ h₂
    simp [run_cha2ds2vasc, h₁, h₂]
  · intro e h
    simp [run_ecg, h]
  · intro e u h₁ h₂
    simp [run_ecg, h₁, h₂]
  · intro u v rhythm findings comp h₁ h₂ h₃ h₄ h₅
    simp [run_ecg, h₁, h₂, h₃, h₄, h₅]

/-- Witness for C6: a successful blood-pressure invocation logs the
single expected line. -/
theorem every_invocation_logs_one_line_witness :
    (run_bp (fun _ _ => .ok ()) (fun _ _ => .ok "Normal") "abc12345" 120 80 "N/A").log
      = [mkLogLine "abc12345" "bp_category" (reprBpData { sbp := 120, dbp := 80 })
          ("Blood Pressure Category: " ++ "Normal")] :=
  ((every_invocation_logs_one_line
      (fun _ => .ok ()) (fun _ => .ok 0.1)
      (fun _ _ => .ok ()) (fun _ _ => .ok "Normal")
      (fun _ => .ok ()) (fun _ => .ok 0)
      (fun _ => .ok ()) (fun _ => .ok ())
      (fun _ _ _ => .ok "Sinus") (fun _ => .ok { findings := "" })
      (fun _ _ => .ok { overall_risk := "low" })
      "abc12345" "N/A" 60 "Male" "White" 200 50 120 false false false 80
      false false false false false false false false
      75 true true false "" 400 800 false false "" false 160).2.2.2.1
    () "Normal" rfl rfl)

/-- Claim C7: for every data dict and title, `create_pdf_report` with
`return_base64 = true` returns exactly the base64 encoding of the byte
stream it returns with `return_base64 = false`: both modes render the
identical document. -/
theorem pdf_base64_matches_raw (data : List (String × String)) (title : String) :
    ∃ bs, create_pdf_report data title false = PdfResult.bytes bs ∧
      create_pdf_report data title true = PdfResult.b64 (base64Encode bs) :=
  ⟨pdfOutput (pdfOps data title), by simp [create_pdf_report], by simp [create_pdf_report]⟩

/-- The cell texts contributed by the per-entry blocks of
`create_pdf_report` are exactly the `key: value` renderings, in order. -/
theorem docLines_itemBlocks (l : List (String × String)) :
    docLines (l.flatMap (fun kv => [PdfOp.lineBreak 8, PdfOp.cell 0 10 (kv.1 ++ ": " ++ kv.2) true]))
      = l.map (fun kv => kv.1 ++ ": " ++ kv.2) := by
  induction l with
  | nil => rfl
  | cons kv rest ih =>
      simp only [List.flatMap_cons, docLines, List.filterMap_append] at ih ⊢
      simpa using ih

/-- Claim C8: the document `create_pdf_report` draws consists of the
title followed by exactly one `key: value` line per entry of the data
dict, in the dict's iteration order, keys and values verbatim — the
renderer neither alters, drops, reorders nor reinterprets any field. -/
theorem pdf_lines_title_then_items (data : List (String × String)) (title : String) :
    docLines (pdfOps data title) = title :: data.map (fun kv => kv.1 ++ ": " ++ kv.2) := by
  have h := docLines_itemBlocks data
  unfold docLines at h ⊢
  unfold pdfOps
  rw [List.filterMap_append, h]
  rfl
